import Mathlib

/-!
Verification of the SRT-generation core of the WEConectSRT repository.

The embedded functions follow `src/App.tsx` (timestamp formatting and SRT
encoding) and the transcription service module (prompt construction and
response/error handling).  JavaScript numbers are modelled as rationals,
JavaScript strings as Lean strings.
-/

namespace WEConectSRT

/-- Embedding of JavaScript `String.prototype.padStart(n, c)` for a single
padding character: pad on the left with `c` until the length is at least `n`. -/
def padStart (s : String) (n : Nat) (c : Char) : String :=
  if n ≤ s.length then s else String.mk (List.replicate (n - s.length) c) ++ s

/-- Truncation toward zero, the rounding JavaScript applies inside the `%`
operator. -/
def jsTrunc (q : ℚ) : ℤ :=
  if q < 0 then ⌈q⌉ else ⌊q⌋

/-- Embedding of the JavaScript remainder operator `a % b`:
`a - b * trunc (a / b)`. -/
def jsFmod (a b : ℚ) : ℚ :=
  a - b * jsTrunc (a / b)

/-- Embedding of JavaScript `Math.round`: round half toward positive
infinity, i.e. `⌊x + 1/2⌋`. -/
def jsRound (x : ℚ) : ℤ :=
  ⌊x + 1 / 2⌋

/-- The `hours` value of `formatTime` (src/App.tsx line 8):
`Math.floor(totalSeconds / 3600)`. -/
def hoursComp (totalSeconds : ℚ) : ℤ :=
  ⌊totalSeconds / 3600⌋

/-- The `minutes` value of `formatTime` (src/App.tsx line 9):
`Math.floor((totalSeconds % 3600) / 60)`. -/
def minutesComp (totalSeconds : ℚ) : ℤ :=
  ⌊jsFmod totalSeconds 3600 / 60⌋

/-- The `seconds` value of `formatTime` (src/App.tsx line 10):
`Math.floor(totalSeconds % 60)`. -/
def secondsComp (totalSeconds : ℚ) : ℤ :=
  ⌊jsFmod totalSeconds 60⌋

/-- The `milliseconds` value of `formatTime` (src/App.tsx line 11):
`Math.round((totalSeconds - Math.floor(totalSeconds)) * 1000)`. -/
def millisComp (totalSeconds : ℚ) : ℤ :=
  jsRound ((totalSeconds - (⌊totalSeconds⌋ : ℤ)) * 1000)

/-- Embedding of `formatTime` (src/App.tsx lines 7-13): format a number of
seconds as `HH:MM:SS,mmm`.  Each local `const` of the source is one of the
component functions above, `.toString()` on an integer-valued number is the
decimal representation, `.padStart(k, "0")` is `padStart · k '0'`. -/
def formatTime (totalSeconds : ℚ) : String :=
  padStart (toString (hoursComp totalSeconds)) 2 '0' ++ ":" ++
    padStart (toString (minutesComp totalSeconds)) 2 '0' ++ ":" ++
    padStart (toString (secondsComp totalSeconds)) 2 '0' ++ "," ++
    padStart (toString (millisComp totalSeconds)) 3 '0'

/-- Mathematical remainder used by the specification text:
`a mod b = a - b * floor (a / b)`. -/
def specMod (a b : ℚ) : ℚ :=
  a - b * ⌊a / b⌋

/-- Timestamp formatter written from the specification wording: hours =
`floor (s / 3600)`, minutes = `floor ((s mod 3600) / 60)`, secs =
`floor (s mod 60)`, millis = `round ((s - floor s) * 1000)`, the four
components zero-padded and joined as `HH:MM:SS,mmm`. -/
def format_timestamp_spec (s : ℚ) : String :=
  padStart (toString (⌊s / 3600⌋ : ℤ)) 2 '0' ++ ":" ++
    padStart (toString (⌊specMod s 3600 / 60⌋ : ℤ)) 2 '0' ++ ":" ++
    padStart (toString (⌊specMod s 60⌋ : ℤ)) 2 '0' ++ "," ++
    padStart (toString (round ((s - (⌊s⌋ : ℤ)) * 1000))) 3 '0'

theorem formatTime_zero : formatTime 0 = "00:00:00,000" := by
  have h1 : hoursComp 0 = 0 := by norm_num [hoursComp]
  have h2 : minutesComp 0 = 0 := by norm_num [minutesComp, jsFmod, jsTrunc]
  have h3 : secondsComp 0 = 0 := by norm_num [secondsComp, jsFmod, jsTrunc]
  have h4 : millisComp 0 = 0 := by norm_num [millisComp, jsRound]
  rw [formatTime, h1, h2, h3, h4]
  decide

theorem formatTime_3661_5 : formatTime (7323 / 2) = "01:01:01,500" := by
  have h1 : hoursComp (7323 / 2) = 1 := by norm_num [hoursComp]
  have h2 : minutesComp (7323 / 2) = 1 := by norm_num [minutesComp, jsFmod, jsTrunc]
  have h3 : secondsComp (7323 / 2) = 1 := by norm_num [secondsComp, jsFmod, jsTrunc]
  have h4 : millisComp (7323 / 2) = 500 := by norm_num [millisComp, jsRound]
  rw [formatTime, h1, h2, h3, h4]
  decide

theorem formatTime_sub_second_overflow : formatTime (9999 / 10000) = "00:00:00,1000" := by
  have h1 : hoursComp (9999 / 10000) = 0 := by norm_num [hoursComp]
  have h2 : minutesComp (9999 / 10000) = 0 := by norm_num [minutesComp, jsFmod, jsTrunc]
  have h3 : secondsComp (9999 / 10000) = 0 := by norm_num [secondsComp, jsFmod, jsTrunc]
  have h4 : millisComp (9999 / 10000) = 1000 := by norm_num [millisComp, jsRound]
  rw [formatTime, h1, h2, h3, h4]
  decide

theorem jsTrunc_of_nonneg {q : ℚ} (h : 0 ≤ q) : jsTrunc q = ⌊q⌋ := by
  rw [jsTrunc, if_neg (not_lt.2 h)]

theorem jsFmod_eq_specMod {a : ℚ} (b : ℚ) (ha : 0 ≤ a) (hb : 0 < b) :
    jsFmod a b = specMod a b := by
  rw [jsFmod, specMod, jsTrunc_of_nonneg (div_nonneg ha hb.le)]

theorem jsRound_eq_round (x : ℚ) : jsRound x = round x :=
  (round_eq x).symm

theorem specMod_nonneg {a b : ℚ} (hb : 0 < b) : 0 ≤ specMod a b := by
  have := Int.sub_floor_div_mul_nonneg a hb
  rw [specMod]
  linarith [this]

theorem specMod_lt {a b : ℚ} (hb : 0 < b) : specMod a b < b := by
  have := Int.sub_floor_div_mul_lt a hb
  rw [specMod]
  linarith [this]

theorem formatTime_eq_spec (s : ℚ) (h : 0 ≤ s) : formatTime s = format_timestamp_spec s := by
  rw [formatTime, format_timestamp_spec, hoursComp, minutesComp, secondsComp, millisComp,
    jsFmod_eq_specMod 3600 h (by norm_num), jsFmod_eq_specMod 60 h (by norm_num),
    jsRound_eq_round]

/-- C1: for every non-negative number of seconds, `formatTime` computes exactly
the hours/minutes/seconds/milliseconds decomposition stated by the spec
(`floor (s / 3600)`, `floor ((s mod 3600) / 60)`, `floor (s mod 60)`,
`round ((s - floor s) * 1000)`) joined as `HH:MM:SS,mmm`; in particular it maps
`0` to `"00:00:00,000"` and `3661.5` to `"01:01:01,500"`. -/
theorem c1_formatTime_follows_spec_algorithm :
    (∀ s : ℚ, 0 ≤ s → formatTime s = format_timestamp_spec s) ∧
    formatTime 0 = "00:00:00,000" ∧ formatTime (7323 / 2) = "01:01:01,500" :=
  ⟨formatTime_eq_spec, formatTime_zero, formatTime_3661_5⟩

/-- Witness for C1: the general refinement statement applied at the concrete
input `3661.5 = 7323 / 2`. -/
theorem c1_formatTime_follows_spec_algorithm_witness :
    formatTime (7323 / 2) = format_timestamp_spec (7323 / 2) :=
  c1_formatTime_follows_spec_algorithm.1 (7323 / 2) (by norm_num)

theorem length_padStart (s : String) (n : Nat) (c : Char) :
    (padStart s n c).length = max n s.length := by
  rw [padStart]
  split
  · rw [Nat.max_eq_right]
    assumption
  · rw [String.length_append, String.length_mk, List.length_replicate]
    omega

theorem int_toString_of_nonneg {i : ℤ} (h : 0 ≤ i) : toString i = Nat.repr i.toNat := by
  cases i with
  | ofNat n => rfl
  | negSucc n => exact absurd h (by simp)

theorem natRepr_length_le_two : ∀ n : Nat, n < 60 → (Nat.repr n).length ≤ 2 := by decide

set_option maxRecDepth 4000 in
theorem natRepr_length_le_three : ∀ n : Nat, n < 1000 → (Nat.repr n).length ≤ 3 := by decide

theorem minutesComp_bounds (s : ℚ) (h : 0 ≤ s) :
    0 ≤ minutesComp s ∧ minutesComp s < 60 := by
  rw [minutesComp, jsFmod_eq_specMod 3600 h (by norm_num)]
  constructor
  · exact Int.floor_nonneg.2 (div_nonneg (specMod_nonneg (by norm_num)) (by norm_num))
  · apply Int.floor_lt.2
    rw [div_lt_iff₀ (by norm_num)]
    push_cast
    linarith [specMod_lt (a := s) (b := 3600) (by norm_num)]

theorem secondsComp_bounds (s : ℚ) (h : 0 ≤ s) :
    0 ≤ secondsComp s ∧ secondsComp s < 60 := by
  rw [secondsComp, jsFmod_eq_specMod 60 h (by norm_num)]
  constructor
  · exact Int.floor_nonneg.2 (specMod_nonneg (by norm_num))
  · apply Int.floor_lt.2
    push_cast
    linarith [specMod_lt (a := s) (b := 60) (by norm_num)]

theorem millisComp_bounds (s : ℚ) : 0 ≤ millisComp s ∧ millisComp s ≤ 1000 := by
  have hf1 : (0 : ℚ) ≤ s - ⌊s⌋ := by linarith [Int.floor_le s]
  have hf2 : s - ⌊s⌋ < 1 := by linarith [Int.lt_floor_add_one s]
  have hm1 : (0 : ℚ) ≤ (s - ⌊s⌋) * 1000 := mul_nonneg hf1 (by norm_num)
  have hm2 : (s - ⌊s⌋) * 1000 < 1000 := by nlinarith
  constructor
  · exact Int.floor_nonneg.2 (by linarith)
  · have hle : millisComp s ≤ ⌊(2001 / 2 : ℚ)⌋ := by
      rw [millisComp, jsRound]
      exact Int.floor_le_floor (by linarith)
    have : (⌊(2001 / 2 : ℚ)⌋ : ℤ) = 1000 := by norm_num
    omega

theorem padded_two_len {i : ℤ} (h0 : 0 ≤ i) (h60 : i < 60) :
    (padStart (toString i) 2 '0').length = 2 := by
  rw [length_padStart, int_toString_of_nonneg h0, Nat.max_eq_left]
  exact natRepr_length_le_two i.toNat (by omega)

/-- C2 (amended): for every non-negative input the output decomposes as
`HH:MM:SS,mmm` with `HH` at least two characters (hours are never wrapped),
`MM` and `SS` exactly two characters, and a millisecond field padded to at
least three characters; the millisecond field has exactly three characters
whenever the rounded millisecond value is at most `999`, and is the
four-character string `"1000"` when the rounding produces `1000`. -/
theorem c2_field_shape_amended (s : ℚ) (h : 0 ≤ s) :
    ∃ hh mm ss ms : String,
      formatTime s = hh ++ ":" ++ mm ++ ":" ++ ss ++ "," ++ ms ∧
      hh = padStart (toString (hoursComp s)) 2 '0' ∧
      ms = padStart (toString (millisComp s)) 3 '0' ∧
      2 ≤ hh.length ∧ mm.length = 2 ∧ ss.length = 2 ∧
      3 ≤ ms.length ∧
      (millisComp s ≤ 999 → ms.length = 3) ∧
      (millisComp s = 1000 → ms = "1000") := by
  obtain ⟨hm0, hm60⟩ := minutesComp_bounds s h
  obtain ⟨hs0, hs60⟩ := secondsComp_bounds s h
  obtain ⟨hms0, hms1000⟩ := millisComp_bounds s
  refine ⟨_, _, _, _, rfl, rfl, rfl, ?_, ?_, ?_, ?_, ?_, ?_⟩
  · rw [length_padStart]
    exact Nat.le_max_left _ _
  · exact padded_two_len hm0 hm60
  · exact padded_two_len hs0 hs60
  · rw [length_padStart]
    exact Nat.le_max_left _ _
  · intro h999
    rw [length_padStart, int_toString_of_nonneg hms0, Nat.max_eq_left]
    exact natRepr_length_le_three _ (by omega)
  · intro h1000
    rw [h1000]
    decide

/-- Witness for C2 (amended): the shape statement instantiated at input `0`. -/
theorem c2_field_shape_amended_witness :
    ∃ hh mm ss ms : String,
      formatTime 0 = hh ++ ":" ++ mm ++ ":" ++ ss ++ "," ++ ms ∧
      hh = padStart (toString (hoursComp 0)) 2 '0' ∧
      ms = padStart (toString (millisComp 0)) 3 '0' ∧
      2 ≤ hh.length ∧ mm.length = 2 ∧ ss.length = 2 ∧
      3 ≤ ms.length ∧
      (millisComp 0 ≤ 999 → ms.length = 3) ∧
      (millisComp 0 = 1000 → ms = "1000") :=
  c2_field_shape_amended 0 le_rfl

/-- C2 counterexample: at the concrete input `0.9999` the rounded millisecond
value is `1000` and the output `"00:00:00,1000"` admits no decomposition
`HH:MM:SS,mmm` whose millisecond field has exactly three characters, so the
millisecond field is not always a 3-digit string. -/
theorem c2_field_shape_counterexample :
    millisComp (9999 / 10000) = 1000 ∧
    ¬ ∃ hh mm ss ms : String,
      formatTime (9999 / 10000) = hh ++ ":" ++ mm ++ ":" ++ ss ++ "," ++ ms ∧
      hh.length = 2 ∧ mm.length = 2 ∧ ss.length = 2 ∧ ms.length = 3 := by
  constructor
  · norm_num [millisComp, jsRound]
  · rintro ⟨hh, mm, ss, ms, heq, h1, h2, h3, h4⟩
    rw [formatTime_sub_second_overflow] at heq
    have hlen := congrArg String.length heq
    have e1 : ("00:00:00,1000" : String).length = 13 := rfl
    have e2 : (":" : String).length = 1 := rfl
    have e3 : ("," : String).length = 1 := rfl
    simp only [String.length_append, e1, e2, e3] at hlen
    omega

/-- Whitespace characters recognised by JavaScript `String.prototype.trim`
(space, tab, line feed, carriage return, vertical tab, form feed,
no-break space, byte-order mark). -/
def isJsWhitespace (c : Char) : Bool :=
  c = ' ' || c = '\t' || c = '\n' || c = '\r' || c = '\x0b' || c = '\x0c' ||
    c = '\u00A0' || c = '\uFEFF'

/-- Embedding of JavaScript `String.prototype.trim`: remove whitespace from
both ends of the string. -/
def jsTrim (s : String) : String :=
  String.mk (((s.data.dropWhile isJsWhitespace).reverse.dropWhile isJsWhitespace).reverse)

/-- Modelled from the spec: the repository imports `TranscriptionSegment`
from `../types`, a file that is not among the sources; the data model of the spec
defines a Segment by `start` (seconds), `end` (seconds) and `text`.  The
`extra` field models any extraneous data (such as an id) that the external
service may include in a segment object — the unchecked cast in the service
module does not strip such fields, and the spec requires the encoder to
ignore them. -/
structure TranscriptionSegment where
  start : ℚ
  «end» : ℚ
  text : String
  extra : List (String × String) := []

/-- Embedding of JavaScript `Array.prototype.join(sep)`. -/
def joinStrings (sep : String) : List String → String
  | [] => ""
  | [s] => s
  | s :: s2 :: rest => s ++ sep ++ joinStrings sep (s2 :: rest)

/-- One entry of the SRT output, from the arrow function at src/App.tsx
lines 17-21: the 1-based index, the timestamp line, the trimmed text, each
followed by a newline. -/
def srtBlock (index : ℕ) (segment : TranscriptionSegment) : String :=
  toString (index + 1) ++ "\n" ++ formatTime segment.start ++ " --> " ++
    formatTime segment.«end» ++ "\n" ++ jsTrim segment.text ++ "\n"

/-- The mapped list of entries (`transcription.map((segment, index) => ...)`). -/
def srtBlocks (transcription : List TranscriptionSegment) : List String :=
  (transcription.enum).map fun p => srtBlock p.1 p.2

/-- Embedding of `jsonToSrt` (src/App.tsx lines 16-22): join the entries
with a newline. -/
def jsonToSrt (transcription : List TranscriptionSegment) : String :=
  joinStrings "\n" (srtBlocks transcription)

/-- A text line of the SRT document: content followed by its terminator. -/
def srtLine (s : String) : String := s ++ "\n"

/-- One encoded entry as the claim describes it: the 1-based index `i + 1`
on its own line, a line `format_timestamp(start) --> format_timestamp(end)`,
and the trimmed text line of the segment. -/
def claimEntry (i : ℕ) (seg : TranscriptionSegment) : String :=
  srtLine (toString (i + 1)) ++
    srtLine (formatTime seg.start ++ " --> " ++ formatTime seg.«end») ++
    srtLine (jsTrim seg.text)

/-- Concatenation of the entries with a single blank line (one empty line,
i.e. one extra newline) between consecutive entries and nothing after the
last entry, written as direct recursion from the claim wording. -/
def claimEncodeAux : ℕ → List TranscriptionSegment → String
  | _, [] => ""
  | i, [seg] => claimEntry i seg
  | i, seg :: seg2 :: rest => claimEntry i seg ++ "\n" ++ claimEncodeAux (i + 1) (seg2 :: rest)

/-- The encoder as described by the claim, entries numbered from position 0. -/
def claimEncode (segs : List TranscriptionSegment) : String :=
  claimEncodeAux 0 segs

theorem claimEntry_eq_srtBlock (i : ℕ) (seg : TranscriptionSegment) :
    claimEntry i seg = srtBlock i seg := by
  simp only [claimEntry, srtLine, srtBlock, String.append_assoc]

theorem joinStrings_enumFrom (i : ℕ) (segs : List TranscriptionSegment) :
    joinStrings "\n" ((segs.enumFrom i).map fun p => srtBlock p.1 p.2) =
      claimEncodeAux i segs := by
  induction segs generalizing i with
  | nil => rfl
  | cons seg rest ih =>
    cases rest with
    | nil => simp [claimEncodeAux, claimEntry_eq_srtBlock, joinStrings, List.enumFrom_cons]
    | cons seg2 rest2 =>
      simp only [List.enumFrom_cons, List.map_cons, joinStrings, claimEncodeAux,
        claimEntry_eq_srtBlock]
      rw [← ih (i + 1)]
      simp [List.enumFrom_cons]

/-- C3: the encoder emits, for the segment at 0-based position `i`, the
1-based index `i + 1` on its own line, then the timestamp-range line, then
the trimmed text line, concatenating entries with a single blank line
between consecutive entries and nothing after the last entry; the empty
sequence is encoded as the empty string. -/
theorem c3_encode_entry_layout :
    (∀ segs : List TranscriptionSegment, jsonToSrt segs = claimEncode segs) ∧
    jsonToSrt [] = "" := by
  constructor
  · intro segs
    rw [jsonToSrt, srtBlocks, claimEncode]
    exact joinStrings_enumFrom 0 segs
  · rfl

/-- The data of a segment that the encoder is allowed to read: start, end
and text. -/
def coreOf (seg : TranscriptionSegment) : ℚ × ℚ × String :=
  (seg.start, seg.«end», seg.text)

theorem srtBlock_congr (i : ℕ) {a b : TranscriptionSegment}
    (hc : coreOf a = coreOf b) : srtBlock i a = srtBlock i b := by
  simp only [coreOf, Prod.mk.injEq] at hc
  rw [srtBlock, srtBlock, hc.1, hc.2.1, hc.2.2]

theorem srtBlocks_enumFrom_congr :
    ∀ (i : ℕ) (xs ys : List TranscriptionSegment), xs.map coreOf = ys.map coreOf →
      (xs.enumFrom i).map (fun p => srtBlock p.1 p.2) =
        (ys.enumFrom i).map (fun p => srtBlock p.1 p.2) := by
  intro i xs
  induction xs generalizing i with
  | nil =>
    intro ys hmap
    have : ys = [] := by
      cases ys with
      | nil => rfl
      | cons y ys2 => simp at hmap
    rw [this]
  | cons x xs2 ih =>
    intro ys hmap
    cases ys with
    | nil => simp at hmap
    | cons y ys2 =>
      simp only [List.map_cons, List.cons.injEq] at hmap
      simp only [List.enumFrom_cons, List.map_cons]
      rw [srtBlock_congr i hmap.1, ih (i + 1) ys2 hmap.2]

/-- C4: the rendered block at each 0-based position `i` is exactly the block
of the input segment at position `i` carrying the 1-based index `i + 1`
(so indices are contiguous from 1 and follow input order — the encoder never
re-sorts), and the output depends only on the start/end/text data of the
segments, not on any extraneous field. -/
theorem c4_contiguous_indices_input_order :
    (∀ (segs : List TranscriptionSegment) (i : ℕ) (h : i < segs.length),
      (srtBlocks segs).get ⟨i, by simpa [srtBlocks] using h⟩ =
        srtBlock i (segs.get ⟨i, h⟩) ∧
      ∃ rest, srtBlock i (segs.get ⟨i, h⟩) = toString (i + 1) ++ "\n" ++ rest) ∧
    (∀ segs segs' : List TranscriptionSegment,
      segs.map coreOf = segs'.map coreOf → jsonToSrt segs = jsonToSrt segs') := by
  constructor
  · intro segs i h
    constructor
    · simp only [srtBlocks, List.get_eq_getElem, List.getElem_map, List.enum,
        List.getElem_enumFrom, Nat.zero_add]
    · exact ⟨formatTime (segs.get ⟨i, h⟩).start ++ " --> " ++
        formatTime (segs.get ⟨i, h⟩).«end» ++ "\n" ++ jsTrim (segs.get ⟨i, h⟩).text ++ "\n",
        by simp [srtBlock, String.append_assoc]⟩
  · intro segs segs' hmap
    rw [jsonToSrt, jsonToSrt, srtBlocks, srtBlocks]
    show joinStrings "\n" ((segs.enumFrom 0).map fun p => srtBlock p.1 p.2) =
      joinStrings "\n" ((segs'.enumFrom 0).map fun p => srtBlock p.1 p.2)
    rw [srtBlocks_enumFrom_congr 0 segs segs' hmap]

/-- Witness for C4: the statement applied to a concrete two-segment list
(with extraneous data on the second segment) at position 1. -/
theorem c4_contiguous_indices_input_order_witness :
    (srtBlocks [⟨0, 1, "a", []⟩, ⟨2, 3, "b", [("id", "7")]⟩]).get ⟨1, by decide⟩ =
      srtBlock 1 (([⟨0, 1, "a", []⟩, ⟨2, 3, "b", [("id", "7")]⟩] :
        List TranscriptionSegment).get ⟨1, by decide⟩) ∧
    ∃ rest, srtBlock 1 (([⟨0, 1, "a", []⟩, ⟨2, 3, "b", [("id", "7")]⟩] :
        List TranscriptionSegment).get ⟨1, by decide⟩) = toString (1 + 1) ++ "\n" ++ rest :=
  c4_contiguous_indices_input_order.1 [⟨0, 1, "a", []⟩, ⟨2, 3, "b", [("id", "7")]⟩] 1
    (by decide)

theorem dropWhile_idem {α : Type} (p : α → Bool) (l : List α) :
    (l.dropWhile p).dropWhile p = l.dropWhile p := by
  induction l with
  | nil => rfl
  | cons x xs ih =>
    cases hp : p x <;> simp [List.dropWhile_cons, hp, ih]

theorem dropWhile_eq_self_append {α : Type} {p : α → Bool} {l r : List α}
    (h : (l ++ r).dropWhile p = l ++ r) : l.dropWhile p = l := by
  cases l with
  | nil => rfl
  | cons x xs =>
    have hx : p x = false := by
      cases hp : p x
      · rfl
      · exfalso
        rw [List.cons_append, List.dropWhile_cons, if_pos hp] at h
        have hle := (List.dropWhile_sublist (l := xs ++ r) p).length_le
        rw [h] at hle
        simp at hle
    simp [List.dropWhile_cons, hx]

theorem jsTrim_idem (s : String) : jsTrim (jsTrim s) = jsTrim s := by
  rw [jsTrim, jsTrim]
  set p := isJsWhitespace
  set d := s.data with hd
  set l := d.dropWhile p with hl
  set e := (l.reverse.dropWhile p).reverse with he
  have hLeftl : l.dropWhile p = l := dropWhile_idem p d
  have hrev : e.reverse = l.reverse.dropWhile p := by rw [he, List.reverse_reverse]
  obtain ⟨t, ht⟩ : l.reverse.dropWhile p <:+ l.reverse := List.dropWhile_suffix p
  have hle : l = e ++ t.reverse := by
    have h2 := congrArg List.reverse ht
    rw [List.reverse_append, List.reverse_reverse] at h2
    rw [← h2, he]
  have hLefte : e.dropWhile p = e := by
    apply dropWhile_eq_self_append (r := t.reverse)
    rw [← hle]
    exact hLeftl
  have hRighte : (e.reverse.dropWhile p).reverse = e := by
    rw [hrev, dropWhile_idem, ← hrev, List.reverse_reverse]
  have hdata : (String.mk e).data = e := rfl
  rw [hdata, hLefte, hRighte]

/-- Replace the text of a segment by its trimmed form, leaving the rest alone. -/
def trimSeg (seg : TranscriptionSegment) : TranscriptionSegment :=
  { seg with text := jsTrim seg.text }

theorem srtBlock_trimSeg (i : ℕ) (seg : TranscriptionSegment) :
    srtBlock i (trimSeg seg) = srtBlock i seg := by
  rw [srtBlock, srtBlock, trimSeg]
  simp only [jsTrim_idem]

theorem srtBlocks_map_trim :
    ∀ (i : ℕ) (xs : List TranscriptionSegment),
      ((xs.map trimSeg).enumFrom i).map (fun p => srtBlock p.1 p.2) =
        (xs.enumFrom i).map (fun p => srtBlock p.1 p.2) := by
  intro i xs
  induction xs generalizing i with
  | nil => rfl
  | cons x xs2 ih =>
    simp only [List.map_cons, List.enumFrom_cons]
    rw [srtBlock_trimSeg, ih (i + 1)]

/-- C5: trimming the text of every segment before encoding changes nothing
(the encoder itself trims, and trimming is idempotent), and encoding the
same sequence twice yields identical strings. -/
theorem c5_trim_before_encode_idempotent :
    (∀ segs : List TranscriptionSegment, jsonToSrt (segs.map trimSeg) = jsonToSrt segs) ∧
    (∀ segs : List TranscriptionSegment, jsonToSrt segs = jsonToSrt segs) := by
  constructor
  · intro segs
    rw [jsonToSrt, jsonToSrt, srtBlocks, srtBlocks]
    show joinStrings "\n" (((segs.map trimSeg).enumFrom 0).map fun p => srtBlock p.1 p.2) =
      joinStrings "\n" ((segs.enumFrom 0).map fun p => srtBlock p.1 p.2)
    rw [srtBlocks_map_trim 0 segs]
  · intro segs
    rfl

/-- The start delimiter marker around the reference text in the prompt. -/
def refTextStartMarker : String := "--- REFERENCE TEXT START ---"

/-- The end delimiter marker around the reference text in the prompt. -/
def refTextEndMarker : String := "--- REFERENCE TEXT END ---"

/-- Text of the with-reference prompt template before the interpolated
reference text (service module lines 39-45). -/
def withRefPromptPre : String :=
  "\nYou are an expert audio transcriptionist specializing in Japanese. Your task is to transcribe the provided audio and generate accurate, synchronized subtitles.\n\n**CRITICAL INSTRUCTION:** You have been given a reference text. You MUST use this text to ensure the transcription is as accurate as possible. Align the audio transcription with the provided text, correcting any misheard words, names, or phrases to match the reference text. The final transcription\u0027s wording MUST match the reference text.\n\n--- REFERENCE TEXT START ---\n"

/-- Text of the with-reference prompt template after the interpolated
reference text (service module lines 45-59). -/
def withRefPromptPost : String :=
  "\n--- REFERENCE TEXT END ---\n\n**OUTPUT FORMAT:**\nThe output must be a valid JSON array of objects. Each object represents a subtitle segment and must contain:\n1. \"start\": The starting time of the segment in seconds (number).\n2. \"end\": The ending time of the segment in seconds (number).\n3. \"text\": The transcribed text for that segment (string), corrected according to the reference text.\n\n**IMPORTANT EXAMPLE FORMAT:**\n[\n  \x7b \"start\": 0.52, \"end\": 2.88, \"text\": \"京都で、奇跡が起きた。\" \x7d,\n  \x7b \"start\": 3.1, \"end\": 5.4, \"text\": \"天皇陛下と雅子さまが姿を現した瞬間、雨が 止まった。\" \x7d\n]\n    "

/-- The with-reference prompt (service module lines 39-59): the template
with the reference text interpolated between the delimiter markers. -/
def withRefPrompt (referenceText : String) : String :=
  withRefPromptPre ++ referenceText ++ withRefPromptPost

/-- The without-reference prompt (service module lines 61-87), including the
fixed list of proper-noun spellings to bias recognition toward. -/
def withoutRefPrompt : String :=
  "\n      You are an expert audio transcriptionist, particularly for the Japanese language. Your task is to transcribe the provided audio file into text and provide accurate timestamps for each segment.\n      The output must be a valid JSON array of objects.\n      Each object in the array represents a single subtitle entry and must contain three properties:\n      1. \"start\": The starting time of the segment in seconds (number).\n      2. \"end\": The ending time of the segment in seconds (number).\n      3. \"text\": The transcribed text for that segment (string).\n\n      **IMPORTANT**: You must ensure the following names are transcribed correctly. Pay close attention to these specific names and correct any potential mis-transcriptions in the audio:\n      - 秋篠宮様\n      - 紀子様\n      - 悠仁様\n      - 佳子様\n      - 眞子様\n      - 美智子様\n      - 雅子様 (This is the correct kanji for Empress Masako. Do NOT use \"正子様\".)\n      - 愛子様\n      - 徳仁天皇\n      - 久子様\n      - 信子様\n\n      Example format:\n      [\n        \x7b \"start\": 0.52, \"end\": 2.88, \"text\": \"Hello, and welcome to our podcast.\" \x7d,\n        \x7b \"start\": 3.1, \"end\": 5.4, \"text\": \"Today we\u0027ll be discussing the future of AI.\" \x7d\n      ]\n    "

/-- The fixed list of domain-specific proper-noun spellings of the
without-reference prompt (service module lines 70-80). -/
def properNounList : List String :=
  ["秋篠宮様", "紀子様", "悠仁様", "佳子様", "眞子様", "美智子様", "雅子様",
    "愛子様", "徳仁天皇", "久子様", "信子様"]

/-- Prompt selection of `generateTranscription` (service module lines
36-88): `if (referenceText)` — JavaScript truthiness, so a present empty
string takes the without-reference branch, as does a null value. -/
def buildPrompt : Option String → String
  | some s => if s = "" then withoutRefPrompt else withRefPrompt s
  | none => withoutRefPrompt

/-- Check whether the first list is an initial run of the second. -/
def startsWithL : List Char → List Char → Bool
  | [], _ => true
  | _ :: _, [] => false
  | a :: as, b :: bs => a = b && startsWithL as bs

/-- Check whether the needle occurs contiguously somewhere in the haystack. -/
def containsL (needle : List Char) : List Char → Bool
  | [] => needle.isEmpty
  | b :: rest => startsWithL needle (b :: rest) || containsL needle rest

/-- Substring containment: the needle occurs contiguously in the haystack. -/
def containsStr (hay needle : String) : Prop :=
  containsL needle.data hay.data = true

theorem startsWithL_append (n t : List Char) : startsWithL n (n ++ t) = true := by
  induction n with
  | nil => rfl
  | cons a as ih => simp [startsWithL, ih]

theorem containsL_here {n h : List Char} (hs : startsWithL n h = true) :
    containsL n h = true := by
  cases h with
  | nil =>
    cases n with
    | nil => rfl
    | cons a as => exact absurd hs (by simp [startsWithL])
  | cons b rest => simp [containsL, hs]

theorem containsL_append_left (n : List Char) (a : List Char) {h : List Char}
    (hc : containsL n h = true) : containsL n (a ++ h) = true := by
  induction a with
  | nil => exact hc
  | cons x xs ih => simp [containsL, ih]

theorem containsL_infix (n a b : List Char) : containsL n (a ++ (n ++ b)) = true :=
  containsL_append_left n a (containsL_here (startsWithL_append n b))

instance (hay needle : String) : Decidable (containsStr hay needle) := by
  unfold containsStr
  infer_instance

set_option maxRecDepth 40000 in
theorem withRefPromptPre_decomp :
    ∃ a : List Char,
      withRefPromptPre.data = a ++ refTextStartMarker.data ++ ("\n" : String).data :=
  ⟨("\nYou are an expert audio transcriptionist specializing in Japanese. Your task is to transcribe the provided audio and generate accurate, synchronized subtitles.\n\n**CRITICAL INSTRUCTION:** You have been given a reference text. You MUST use this text to ensure the transcription is as accurate as possible. Align the audio transcription with the provided text, correcting any misheard words, names, or phrases to match the reference text. The final transcription\u0027s wording MUST match the reference text.\n\n" : String).data, by decide⟩

set_option maxRecDepth 40000 in
theorem withRefPromptPost_decomp :
    ∃ b : List Char,
      withRefPromptPost.data = ("\n" : String).data ++ refTextEndMarker.data ++ b :=
  ⟨("\n\n**OUTPUT FORMAT:**\nThe output must be a valid JSON array of objects. Each object represents a subtitle segment and must contain:\n1. \"start\": The starting time of the segment in seconds (number).\n2. \"end\": The ending time of the segment in seconds (number).\n3. \"text\": The transcribed text for that segment (string), corrected according to the reference text.\n\n**IMPORTANT EXAMPLE FORMAT:**\n[\n  \x7b \"start\": 0.52, \"end\": 2.88, \"text\": \"京都で、奇跡が起きた。\" \x7d,\n  \x7b \"start\": 3.1, \"end\": 5.4, \"text\": \"天皇陛下と雅子さまが姿を現した瞬間、雨が 止まった。\" \x7d\n]\n    " : String).data, by decide⟩

/-- C6 (amended): when a non-empty reference text is supplied, the built
instruction contains verbatim the reference text enclosed between the start
and end delimiter markers; when the reference text is absent, the
instruction contains every entry of the fixed proper-noun list. -/
theorem c6_prompt_contents_amended :
    (∀ s : String, s ≠ "" →
      containsStr (buildPrompt (some s))
        (refTextStartMarker ++ "\n" ++ s ++ "\n" ++ refTextEndMarker)) ∧
    (∀ n ∈ properNounList, containsStr (buildPrompt none) n) := by
  constructor
  · intro s hs
    rw [buildPrompt, if_neg hs]
    obtain ⟨a, ha⟩ := withRefPromptPre_decomp
    obtain ⟨b, hb⟩ := withRefPromptPost_decomp
    show containsL _ _ = true
    rw [withRefPrompt]
    simp only [String.data_append, ha, hb, List.append_assoc]
    have := containsL_infix
      (refTextStartMarker.data ++ (("\n" : String).data ++ (s.data ++
        (("\n" : String).data ++ refTextEndMarker.data)))) a b
    simpa [List.append_assoc] using this
  · intro n hn
    fin_cases hn <;> (set_option maxRecDepth 40000 in decide)

/-- Witness for C6 (amended): both branches instantiated, at the concrete
reference text `"abc"` and at the proper noun `雅子様`. -/
theorem c6_prompt_contents_amended_witness :
    containsStr (buildPrompt (some "abc"))
      (refTextStartMarker ++ "\n" ++ "abc" ++ "\n" ++ refTextEndMarker) ∧
    containsStr (buildPrompt none) "雅子様" :=
  ⟨c6_prompt_contents_amended.1 "abc" (by decide),
    c6_prompt_contents_amended.2 "雅子様" (by decide)⟩

set_option maxRecDepth 40000 in
/-- C6 counterexample: a reference text that is present but empty is not
embedded between the delimiter markers — the built instruction does not even
contain the marker-delimited empty reference text, because string truthiness
routes the empty string to the without-reference branch. -/
theorem c6_prompt_contents_counterexample :
    ¬ containsStr (buildPrompt (some ""))
      (refTextStartMarker ++ "\n" ++ "" ++ "\n" ++ refTextEndMarker) := by
  decide

set_option maxRecDepth 40000 in
/-- C10: a present-but-empty reference text behaves exactly as an absent
one: the without-reference instruction is built and no delimiter marker
appears in it. -/
theorem c10_empty_reference_treated_as_absent :
    buildPrompt (some "") = buildPrompt none ∧
    ¬ containsStr (buildPrompt (some "")) refTextStartMarker ∧
    ¬ containsStr (buildPrompt (some "")) refTextEndMarker :=
  ⟨rfl, by decide, by decide⟩

/-- A JSON value, as produced by `JSON.parse`. -/
inductive Json where
  | null
  | bool (b : Bool)
  | num (q : ℚ)
  | str (s : String)
  | arr (elems : List Json)
  | obj (members : List (String × Json))

/-- A thrown JavaScript value: either an `Error` instance carrying its
`message`, or any other thrown value (`instanceof Error` fails). -/
inductive JsError where
  | error (message : String)
  | other

/-- The outcome of the `try`-block body of `generateTranscription` up to and
including `JSON.parse` (service module lines 94-125): either the reply text
parsed to a JSON value, or `JSON.parse` threw a `SyntaxError` (an `Error`
carrying a message), or the `generateContent` call itself threw. -/
inductive TryOutcome where
  | parsed (j : Json)
  | parseFailed (message : String)
  | callFailed (e : JsError)

/-- The catch clause of `generateTranscription` (service module lines
133-139): an `Error` is rethrown with its message behind the prefix
`Failed to generate transcription: `; any other thrown value becomes the
fixed unknown-error message. -/
def wrapError : JsError → JsError
  | JsError.error msg => JsError.error ("Failed to generate transcription: " ++ msg)
  | JsError.other => JsError.error "An unknown error occurred during transcription."

/-- Embedding of the response handling of `generateTranscription` (service
module lines 124-139): a parsed top-level array is returned as the segment
list (an unchecked cast); a parsed non-array triggers
`Error("API response is not a valid array.")`, which the catch clause wraps;
parse and call failures are wrapped the same way. -/
def generateTranscriptionModel : TryOutcome → Except JsError (List Json)
  | TryOutcome.parsed (Json.arr elems) => Except.ok elems
  | TryOutcome.parsed _ =>
      Except.error (wrapError (JsError.error "API response is not a valid array."))
  | TryOutcome.parseFailed msg => Except.error (wrapError (JsError.error msg))
  | TryOutcome.callFailed e => Except.error (wrapError e)

/-- The service viewed as a stream of prepared outcomes for successive
calls: the function body awaits `ai.models.generateContent` exactly once
(line 95), so only the first outcome is ever consumed. -/
def generateTranscriptionStream (svc : ℕ → TryOutcome) : Except JsError (List Json) :=
  generateTranscriptionModel (svc 0)

/-- C7: a service reply that parses as JSON but is not a top-level array
makes `generateTranscription` fail with the response-format error (wrapped
by the catch clause) and return no segment list. -/
theorem c7_non_array_reply_fails :
    ∀ j : Json, (∀ elems, j ≠ Json.arr elems) →
      generateTranscriptionModel (TryOutcome.parsed j) =
        Except.error (JsError.error
          "Failed to generate transcription: API response is not a valid array.") ∧
      ∀ elems, generateTranscriptionModel (TryOutcome.parsed j) ≠ Except.ok elems := by
  intro j hj
  cases j with
  | null => exact ⟨rfl, fun elems h => nomatch h⟩
  | bool b => exact ⟨rfl, fun elems h => nomatch h⟩
  | num q => exact ⟨rfl, fun elems h => nomatch h⟩
  | str s => exact ⟨rfl, fun elems h => nomatch h⟩
  | arr elems => exact absurd rfl (hj elems)
  | obj members => exact ⟨rfl, fun elems h => nomatch h⟩

/-- Witness for C7: the statement applied at the concrete non-array reply
`{}` (an empty JSON object). -/
theorem c7_non_array_reply_fails_witness :
    generateTranscriptionModel (TryOutcome.parsed (Json.obj [])) =
      Except.error (JsError.error
        "Failed to generate transcription: API response is not a valid array.") ∧
    ∀ elems, generateTranscriptionModel (TryOutcome.parsed (Json.obj [])) ≠
      Except.ok elems :=
  c7_non_array_reply_fails (Json.obj []) (fun _ h => nomatch h)

theorem wrapError_message (e : JsError) :
    ∃ msg, wrapError e = JsError.error msg ∧ msg ≠ "" := by
  cases e with
  | error m =>
    refine ⟨_, rfl, fun h => ?_⟩
    have hlen := congrArg String.length h
    have e1 : ("Failed to generate transcription: " : String).length = 34 := rfl
    rw [String.length_append, e1] at hlen
    simp at hlen
  | other => exact ⟨_, rfl, by decide⟩

/-- C8: every transport or parse failure surfaces as a single wrapped
failure — an `Error` cause keeps its message behind the fixed prefix, a
non-`Error` cause becomes the fixed unknown-error message — the surfaced
message is never empty, and the result is determined by the first (only)
service call: no retry consults a second outcome. -/
theorem c8_failure_wrapping_and_no_retry :
    (∀ m : String,
      generateTranscriptionModel (TryOutcome.callFailed (JsError.error m)) =
        Except.error (JsError.error ("Failed to generate transcription: " ++ m)) ∧
      generateTranscriptionModel (TryOutcome.parseFailed m) =
        Except.error (JsError.error ("Failed to generate transcription: " ++ m))) ∧
    generateTranscriptionModel (TryOutcome.callFailed JsError.other) =
      Except.error (JsError.error "An unknown error occurred during transcription.") ∧
    (∀ t e, generateTranscriptionModel t = Except.error e →
      ∃ msg, e = JsError.error msg ∧ msg ≠ "") ∧
    (∀ f g : ℕ → TryOutcome, f 0 = g 0 →
      generateTranscriptionStream f = generateTranscriptionStream g) := by
  refine ⟨fun m => ⟨rfl, rfl⟩, rfl, ?_, ?_⟩
  · intro t e het
    cases t with
    | parsed j =>
      cases j with
      | arr elems => exact nomatch het
      | null =>
        injection het with h
        exact h ▸ wrapError_message _
      | bool b =>
        injection het with h
        exact h ▸ wrapError_message _
      | num q =>
        injection het with h
        exact h ▸ wrapError_message _
      | str s =>
        injection het with h
        exact h ▸ wrapError_message _
      | obj members =>
        injection het with h
        exact h ▸ wrapError_message _
    | parseFailed msg =>
      injection het with h
      exact h ▸ wrapError_message _
    | callFailed e2 =>
      injection het with h
      exact h ▸ wrapError_message _
  · intro f g h
    rw [generateTranscriptionStream, generateTranscriptionStream, h]

/-- Witness for C8: the non-empty-message part applied at a concrete failed
transport call, and the single-call part applied to two streams agreeing at
position 0. -/
theorem c8_failure_wrapping_and_no_retry_witness :
    (∃ msg, JsError.error "Failed to generate transcription: boom" =
      JsError.error msg ∧ msg ≠ "") ∧
    generateTranscriptionStream (fun _ => TryOutcome.callFailed JsError.other) =
      generateTranscriptionStream (fun n =>
        if n = 0 then TryOutcome.callFailed JsError.other
        else TryOutcome.parsed (Json.arr [])) :=
  ⟨c8_failure_wrapping_and_no_retry.2.2.1
      (TryOutcome.callFailed (JsError.error "boom")) _ rfl,
    c8_failure_wrapping_and_no_retry.2.2.2 _ _ rfl⟩

/-- The relevant state of the `App` component after one generation attempt:
the SRT text, the displayed error and the loading flag. -/
structure AppState where
  srtContent : String
  error : Option String
  isLoading : Bool

/-- The message chosen by the catch clause of `handleGenerateSrt` (line 88):
the message of the cause when it is an `Error`, the fixed fallback otherwise. -/
def msgOfCaught : JsError → String
  | JsError.error m => m
  | JsError.other => "An unexpected error occurred."

/-- Embedding of `handleGenerateSrt` (src/App.tsx lines 76-92): `srtContent`
and `error` are cleared at the start; on success `srtContent` becomes the
encoded SRT document; on failure `error` is set and `srtContent` stays
empty; `isLoading` ends false either way. -/
def handleGenerateSrt (result : Except JsError (List TranscriptionSegment)) : AppState :=
  match result with
  | Except.ok segs => { srtContent := jsonToSrt segs, error := none, isLoading := false }
  | Except.error e => { srtContent := "", error := some (msgOfCaught e), isLoading := false }

/-- One full attempt: the outcome of the service call flows through
`generateTranscription` into `handleGenerateSrt`; `decode` stands for the
unchecked cast `transcriptionData as TranscriptionSegment[]` (service module
line 131), left abstract. -/
def attemptState (t : TryOutcome)
    (decode : List Json → List TranscriptionSegment) : AppState :=
  match generateTranscriptionModel t with
  | Except.ok elems => handleGenerateSrt (Except.ok (decode elems))
  | Except.error e => handleGenerateSrt (Except.error e)

/-- C9: a failed attempt (transport error, parse error or non-array reply)
is a single terminal outcome — the resulting state has an error message and
an empty SRT document — and a non-empty SRT document can only arise from a
successful segment list. -/
theorem c9_failure_leaves_srt_empty :
    (∀ t decode, (∀ elems, generateTranscriptionModel t ≠ Except.ok elems) →
      (attemptState t decode).srtContent = "" ∧ (attemptState t decode).error ≠ none) ∧
    (∀ t decode, (attemptState t decode).srtContent ≠ "" →
      ∃ elems, generateTranscriptionModel t = Except.ok elems) := by
  constructor
  · intro t decode hfail
    cases h : generateTranscriptionModel t with
    | ok elems => exact absurd h (hfail elems)
    | error e =>
      rw [attemptState, h]
      exact ⟨rfl, fun hc => nomatch hc⟩
  · intro t decode hne
    cases h : generateTranscriptionModel t with
    | ok elems => exact ⟨elems, rfl⟩
    | error e =>
      rw [attemptState, h] at hne
      exact absurd rfl hne

/-- Witness for C9: the statement applied at a concrete failed transport
call with a trivial decode. -/
theorem c9_failure_leaves_srt_empty_witness :
    (attemptState (TryOutcome.callFailed JsError.other) (fun _ => [])).srtContent = "" ∧
    (attemptState (TryOutcome.callFailed JsError.other) (fun _ => [])).error ≠ none :=
  c9_failure_leaves_srt_empty.1 (TryOutcome.callFailed JsError.other) (fun _ => [])
    (fun _ h => nomatch h)

end WEConectSRT
